import Mathlib

/-!
Shallow embedding of `src/paramhandler.py`, a NumPy-based input-validation
module with three functions: `get_nparrays` (array normalizer),
`get_classes` (class-set resolver) and `parcheck` (validation gateway).

Modelling decisions:
* Python scalars are `PyScalar`: machine integers as `ℤ` (Python ints are
  unbounded), floats as `ℚ` (the module only compares factors against the
  exact decimal bounds 0.0 and 1.0 and never does float arithmetic, so an
  exact model is adequate; NaN/inf are outside the model), `Bool` for
  Python bools (a subtype of `int` in Python, hence accepted by
  `isinstance(x, (float, int))`), and `String` for non-numeric data.
* Array-like inputs are finite nested trees `PyTree` (scalars and lists),
  the inputs NumPy's `asanyarray` accepts or rejects.
* NumPy behaviour used by the source is modelled by `pyShape` (rectangular
  nesting yields a shape, ragged nesting fails as NumPy raises
  `ValueError` on inhomogeneous input), dtype inference by promotion
  (`bool < int < float < str`, mirroring NumPy's value-based promotion for
  lists of Python scalars), coercion to float64 (string leaves model
  non-numeric strings and fail the coercion), and `np.unique`
  (sorted distinct values). 64-bit overflow never matters here: the module
  only compares sizes and dtypes, so wrap-around is unreachable.
* Exceptions are `Except PErr`; each `PErr` constructor records which
  check fired and the values the source interpolates into its message,
  and `PErr.kind` gives the Python exception class (TypeError/ValueError).
-/

/-- Tag for the Python runtime type of a scalar, as reported by `type(x)`. -/
inductive PyTypeTag where
  | int
  | float
  | bool
  | str
  deriving DecidableEq

/-- A Python scalar value as far as this module can observe it. -/
inductive PyScalar where
  | int (z : ℤ)
  | float (q : ℚ)
  | bool (b : Bool)
  | str (s : String)
  deriving DecidableEq

/-- The runtime type tag of a scalar (`type(x)` in Python). -/
def PyScalar.tag : PyScalar → PyTypeTag
  | .int _ => .int
  | .float _ => .float
  | .bool _ => .bool
  | .str _ => .str

/-- `isinstance(x, (float, int))`: true for ints, floats and bools
(Python's `bool` is a subclass of `int`), false for strings. -/
def isRealNumber : PyScalar → Bool
  | .int _ => true
  | .float _ => true
  | .bool _ => true
  | .str _ => false

/-- Numeric value of a scalar, when it has one (`True` counts as 1,
`False` as 0, as in Python arithmetic and comparisons). -/
def scalarToQ : PyScalar → Option ℚ
  | .int z => some (z : ℚ)
  | .float q => some q
  | .bool b => some (if b then 1 else 0)
  | .str _ => none

/-- Numeric value used in Python's chained comparison `0.0 <= x <= 1.0`;
only consulted after `isRealNumber` has passed, where it is total. -/
def numValue (s : PyScalar) : ℚ := (scalarToQ s).getD 0

/-- An array-like Python value: a scalar or an arbitrarily nested list. -/
inductive PyTree where
  | scalar (v : PyScalar)
  | list (xs : List PyTree)

/-- NumPy dtype, restricted to the kinds this module can distinguish. -/
inductive DType where
  | bool
  | int
  | float
  | str
  deriving DecidableEq

/-- Position of a dtype in NumPy's promotion chain for Python scalars:
bool < int < float, and any mix with strings becomes a string dtype. -/
def DType.rank : DType → Nat
  | .bool => 0
  | .int => 1
  | .float => 2
  | .str => 3

/-- Dtype promotion (join in the chain above). -/
def DType.join (a b : DType) : DType := if a.rank ≤ b.rank then b else a

/-- The dtype a single Python scalar contributes. -/
def PyScalar.dtypeOf : PyScalar → DType
  | .int _ => .int
  | .float _ => .float
  | .bool _ => .bool
  | .str _ => .str

/-- Inferred dtype of `np.asanyarray` on a list of scalars: the promotion
join of the element dtypes; an empty array defaults to float64. -/
def inferDType (l : List PyScalar) : DType :=
  match l with
  | [] => .float
  | s :: rest => rest.foldl (fun d x => d.join x.dtypeOf) s.dtypeOf

mutual

/-- Shape of a nested Python sequence as NumPy sees it: `none` when the
nesting is ragged (inhomogeneous), in which case NumPy raises. -/
def pyShape : PyTree → Option (List Nat)
  | .scalar _ => some []
  | .list xs =>
    match pyShapeList xs with
    | none => none
    | some (n, none) => some [n]
    | some (n, some s) => some (n :: s)

/-- Shapes of the rows of a sequence: the row count together with the
common row shape (`none` for an empty sequence), or failure when the rows
disagree (ragged nesting). -/
def pyShapeList : List PyTree → Option (Nat × Option (List Nat))
  | [] => some (0, none)
  | t :: ts =>
    match pyShape t, pyShapeList ts with
    | some s, some (n, none) => some (n + 1, some s)
    | some s, some (n, some s2) =>
      if s = s2 then some (n + 1, some s) else none
    | _, _ => none

end

mutual

/-- Row-major list of the scalar leaves of a nested sequence. -/
def pyFlatten : PyTree → List PyScalar
  | .scalar v => [v]
  | .list xs => pyFlattenList xs

/-- Row-major leaves of a list of nested sequences. -/
def pyFlattenList : List PyTree → List PyScalar
  | [] => []
  | t :: ts => pyFlatten t ++ pyFlattenList ts

end

/-- A NumPy ndarray: a shape, a dtype and the row-major element list. -/
structure NDArray where
  shape : List Nat
  dtype : DType
  data : List PyScalar
  deriving DecidableEq

/-- `ndarray.ndim`: the number of axes. -/
def NDArray.ndim (a : NDArray) : Nat := a.shape.length

/-- Cast a scalar to a target dtype, as NumPy does when materialising an
array whose inferred dtype is the promotion join of its elements. The
fall-through arms (e.g. a string under a numeric dtype) are unreachable
because the join dtype dominates every element dtype. -/
def castTo (dt : DType) (s : PyScalar) : PyScalar :=
  match dt with
  | .int =>
    match s with
    | .bool b => .int (if b then 1 else 0)
    | other => other
  | .float =>
    match scalarToQ s with
    | some q => .float q
    | none => s
  | .bool => s
  | .str => s

/-- NumPy's message for ragged nested input (modelled). -/
def raggedMsg : String :=
  "setting an array element with a sequence. The requested array has an inhomogeneous shape."

/-- NumPy's message when a leaf cannot be coerced to float (modelled;
string leaves stand for non-numeric string data). -/
def notFloatMsg : String := "could not convert string to float"

/-- Coerce a list of leaves to float64 values, failing as NumPy does on a
non-numeric leaf. -/
def floatDataOf : List PyScalar → Except String (List ℚ)
  | [] => .ok []
  | s :: rest =>
    match scalarToQ s with
    | none => .error notFloatMsg
    | some q =>
      match floatDataOf rest with
      | .error m => .error m
      | .ok qs => .ok (q :: qs)

/-- `np.asanyarray(x, dtype=np.float64)`: requires rectangular nesting and
numeric leaves, and produces a float64 array. -/
def asanyarrayFloat (t : PyTree) : Except String NDArray :=
  match pyShape t with
  | none => .error raggedMsg
  | some sh =>
    match floatDataOf (pyFlatten t) with
    | .error m => .error m
    | .ok qs => .ok ⟨sh, .float, qs.map PyScalar.float⟩

/-- `np.asanyarray(x)` with no forced dtype: requires rectangular nesting,
infers the dtype by promotion and casts every element to it. -/
def asanyarray (t : PyTree) : Except String NDArray :=
  match pyShape t with
  | none => .error raggedMsg
  | some sh =>
    let leaves := pyFlatten t
    let dt := inferDType leaves
    .ok ⟨sh, dt, leaves.map (castTo dt)⟩

/-- Python exception kinds this module raises. -/
inductive ErrKind where
  | typeError
  | valueError
  deriving DecidableEq

/-- The exceptions `paramhandler` can raise, each constructor carrying the
values the source interpolates into its message. -/
inductive PErr where
  | factorTypeError (name : String) (tag : PyTypeTag)
  | factorRangeError (name : String) (value : PyScalar)
  | conversionError (msg : String)
  | dimError (name : String) (ndim : Nat)
  | sampleMismatchError (nSamplesQ nSamplesY : Nat)
  | labelTypeError (dtype : DType)
  | classMismatchError (nFeaturesQ nClassesY : Nat)
  | npValueError (msg : String)
  | npLenTypeError
  deriving DecidableEq

/-- The Python exception class of each raised error. `npValueError` is a
raw NumPy `ValueError` escaping `get_classes`; `npLenTypeError` is the
`TypeError` from `len()` on a 0-d array. -/
def PErr.kind : PErr → ErrKind
  | .factorTypeError _ _ => .typeError
  | .factorRangeError _ _ => .valueError
  | .conversionError _ => .typeError
  | .dimError _ _ => .valueError
  | .sampleMismatchError _ _ => .valueError
  | .labelTypeError _ => .typeError
  | .classMismatchError _ _ => .valueError
  | .npValueError _ => .valueError
  | .npLenTypeError => .typeError

/-- The wrapper prefix `get_nparrays` puts in front of the underlying
conversion failure's message. -/
def wrapMsg (e : String) : String :=
  "Inputs Q and y must be convertible to NumPy arrays. Error: " ++ e

/-- `get_nparrays(Q, y)`: convert `Q` to a float64 array and `y` to an
array with inferred dtype; on either conversion failure (the `try` block
runs the `Q` conversion first) raise `TypeError` wrapping the message. -/
def get_nparrays (Q y : PyTree) : Except PErr (NDArray × NDArray) :=
  match asanyarrayFloat Q with
  | .error e => .error (.conversionError (wrapMsg e))
  | .ok qArr =>
    match asanyarray y with
    | .error e => .error (.conversionError (wrapMsg e))
    | .ok yArr => .ok (qArr, yArr)

/-- Sorted list of the distinct elements of a list (`np.unique` on 1-d
data of a linearly ordered element type). -/
def uniqueSorted {α : Type} [LinearOrder α] (l : List α) : List α :=
  List.insertionSort (· ≤ ·) l.dedup

/-- The `ℤ` elements of an array's data (total view of an int-dtype
array, whose elements are all `PyScalar.int`). -/
def intData (a : NDArray) : List ℤ :=
  a.data.filterMap fun s => match s with | .int z => some z | _ => none

/-- The `ℚ` elements of a float-dtype array's data. -/
def floatData (a : NDArray) : List ℚ :=
  a.data.filterMap fun s => match s with | .float q => some q | _ => none

/-- The `Bool` elements of a bool-dtype array's data. -/
def boolData (a : NDArray) : List Bool :=
  a.data.filterMap fun s => match s with | .bool b => some b | _ => none

/-- The `String` elements of a str-dtype array's data. -/
def strData (a : NDArray) : List String :=
  a.data.filterMap fun s => match s with | .str st => some st | _ => none

/-- `np.unique` on an array: the sorted distinct values, compared in the
order of the array's dtype. -/
def npUnique (a : NDArray) : List PyScalar :=
  match a.dtype with
  | .int => (uniqueSorted (intData a)).map .int
  | .float => (uniqueSorted (floatData a)).map .float
  | .bool => (uniqueSorted (boolData a)).map .bool
  | .str => (uniqueSorted (strData a)).map .str

/-- `get_classes(y, classes)`: with an explicit `classes`, convert it and
take its `len` (first-axis length; `len()` of a 0-d array raises
`TypeError`, and a ragged `classes` makes NumPy raise `ValueError`, both
uncaught in the source); with `classes=None`, the unique values of `y`
and their count. -/
def get_classes (y : NDArray) (classes : Option PyTree) :
    Except PErr (NDArray × Nat) :=
  match classes with
  | some c =>
    match asanyarray c with
    | .error m => .error (.npValueError m)
    | .ok ca =>
      if ca.ndim = 0 then .error .npLenTypeError
      else .ok (ca, ca.shape.headD 0)
  | none =>
    let u := npUnique y
    .ok (⟨[u.length], y.dtype, u⟩, u.length)

/-- Steps 2-6 of `parcheck` (everything after the two factor checks):
array conversion, dimensionality, shape consistency, label dtype and
class-count consistency. -/
def parcheckArrays (Q y : PyTree) (classes : Option PyTree) :
    Except PErr Unit :=
  match get_nparrays Q y with
  | .error e => .error e
  | .ok (qArr, yArr) =>
    if qArr.ndim ≠ 2 then .error (.dimError "Q" qArr.ndim)
    else if yArr.ndim ≠ 1 then .error (.dimError "y" yArr.ndim)
    else
      let nSamples := qArr.shape.headD 0
      if nSamples ≠ yArr.shape.headD 0 then
        .error (.sampleMismatchError nSamples (yArr.shape.headD 0))
      else if yArr.dtype ≠ DType.int then .error (.labelTypeError yArr.dtype)
      else
        let nFeaturesQ := (qArr.shape.drop 1).headD 0
        match get_classes yArr classes with
        | .error e => .error e
        | .ok (_, nClassesY) =>
          if nFeaturesQ ≠ nClassesY then
            .error (.classMismatchError nFeaturesQ nClassesY)
          else .ok ()

/-- `parcheck(Q, y, factor_h, factor_k, classes=None)`: the validation
gateway. Checks, in order: factor types, factor ranges, array conversion,
dimensionality, shape consistency, label dtype, class-count consistency;
raises on the first failure, returns `()` (Python `None`) on success. -/
def parcheck (Q y : PyTree) (factor_h factor_k : PyScalar)
    (classes : Option PyTree) : Except PErr Unit :=
  if isRealNumber factor_h = false then
    .error (.factorTypeError "factor_h" factor_h.tag)
  else if isRealNumber factor_k = false then
    .error (.factorTypeError "factor_k" factor_k.tag)
  else if ¬ (0 ≤ numValue factor_h ∧ numValue factor_h ≤ 1) then
    .error (.factorRangeError "factor_h" factor_h)
  else if ¬ (0 ≤ numValue factor_k ∧ numValue factor_k ≤ 1) then
    .error (.factorRangeError "factor_k" factor_k)
  else parcheckArrays Q y classes

/-- Both scaling factors are real numbers inside `[0, 1]`, i.e. they pass
the two factor checks of `parcheck`. -/
def factorsOk (fh fk : PyScalar) : Prop :=
  isRealNumber fh = true ∧ isRealNumber fk = true ∧
    0 ≤ numValue fh ∧ numValue fh ≤ 1 ∧ 0 ≤ numValue fk ∧ numValue fk ≤ 1

/-- A list of Python ints as a Python list. -/
def intRow (zs : List ℤ) : PyTree := .list (zs.map fun z => .scalar (.int z))

/-- A list of rows of Python ints as a nested Python list. -/
def intMatrix (rows : List (List ℤ)) : PyTree := .list (rows.map intRow)

/-- Fixture: a well-formed 2x2 similarity matrix. -/
def Qex2 : PyTree := intMatrix [[1, 2], [3, 4]]

/-- Fixture: the float64 array `Qex2` converts to. -/
def qaEx2 : NDArray :=
  ⟨[2, 2], .float, [.float 1, .float 2, .float 3, .float 4]⟩

/-- Fixture: a label vector with two distinct labels. -/
def yex2 : PyTree := intRow [0, 1]

/-- Fixture: the int array `yex2` converts to. -/
def yaEx2 : NDArray := ⟨[2], .int, [.int 0, .int 1]⟩

/-- Fixture: a ragged (inhomogeneous) nested list NumPy rejects. -/
def Qrag : PyTree := intMatrix [[1, 2], [3]]

/-- Fixture: a label vector of Python floats. -/
def yfloat2 : PyTree := .list [.scalar (.float 0), .scalar (.float 1)]

/-- Fixture: the float array `yfloat2` converts to. -/
def yafloat2 : NDArray := ⟨[2], .float, [.float 0, .float 1]⟩

/-- Fixture: a 1-D list passed where a matrix is expected. -/
def Q1d : PyTree := intRow [1, 2, 3]

/-- Fixture: the float64 array `Q1d` converts to. -/
def qa1d : NDArray := ⟨[3], .float, [.float 1, .float 2, .float 3]⟩

/-- Fixture: a 5x3 matrix (shape mismatch against a 4-long `y`). -/
def Q53 : PyTree :=
  intMatrix [[1, 0, 0], [0, 1, 0], [0, 0, 1], [1, 1, 0], [0, 1, 1]]

/-- Fixture: the float64 array `Q53` converts to. -/
def qa53 : NDArray :=
  ⟨[5, 3], .float,
    [.float 1, .float 0, .float 0, .float 0, .float 1, .float 0, .float 0,
      .float 0, .float 1, .float 1, .float 1, .float 0, .float 0, .float 1,
      .float 1]⟩

/-- Fixture: a 4x3 matrix. -/
def Q43 : PyTree := intMatrix [[1, 0, 0], [0, 1, 0], [0, 0, 1], [0, 1, 0]]

/-- Fixture: the float64 array `Q43` converts to. -/
def qa43 : NDArray :=
  ⟨[4, 3], .float,
    [.float 1, .float 0, .float 0, .float 0, .float 1, .float 0, .float 0,
      .float 0, .float 1, .float 0, .float 1, .float 0]⟩

/-- Fixture: a 3x3 matrix. -/
def Q33 : PyTree := intMatrix [[1, 0, 0], [0, 1, 0], [0, 0, 1]]

/-- Fixture: the float64 array `Q33` converts to. -/
def qa33 : NDArray :=
  ⟨[3, 3], .float,
    [.float 1, .float 0, .float 0, .float 0, .float 1, .float 0, .float 0,
      .float 0, .float 1]⟩

/-- Fixture: the label vector `[0, 1, 2, 1]` (three distinct labels). -/
def y0121 : PyTree := intRow [0, 1, 2, 1]

/-- Fixture: the int array `y0121` converts to. -/
def ya0121 : NDArray := ⟨[4], .int, [.int 0, .int 1, .int 2, .int 1]⟩

/-- Fixture: the label vector `[0, 0, 1]` (two distinct labels). -/
def y001 : PyTree := intRow [0, 0, 1]

/-- Fixture: the int array `y001` converts to. -/
def ya001 : NDArray := ⟨[3], .int, [.int 0, .int 0, .int 1]⟩

/-- Fixture: the label vector `[0, 5]`, whose label 5 is outside
`cls01`. -/
def y05 : PyTree := intRow [0, 5]

/-- Fixture: the int array `y05` converts to. -/
def ya05 : NDArray := ⟨[2], .int, [.int 0, .int 5]⟩

/-- Fixture: an explicit two-element class list. -/
def cls01 : PyTree := intRow [0, 1]

/-- Fixture: the int array `cls01` converts to. -/
def ca01 : NDArray := ⟨[2], .int, [.int 0, .int 1]⟩

/-- Fixture: an explicit four-element class list. -/
def cls0123 : PyTree := intRow [0, 1, 2, 3]

/-- Fixture: an int array with unsorted, repeated values. -/
def yaPerm1 : NDArray := ⟨[4], .int, [.int 3, .int 1, .int 2, .int 1]⟩

/-- Fixture: a permutation of `yaPerm1`'s data. -/
def yaPerm2 : NDArray := ⟨[4], .int, [.int 1, .int 1, .int 2, .int 3]⟩

/-! Helper lemmas shared by the claim theorems. -/

/-- When both factors pass the type and range checks, `parcheck` reduces
to the array-checking tail `parcheckArrays`. -/
theorem parcheck_factors_pass (Q y : PyTree) (fh fk : PyScalar)
    (cl : Option PyTree) (hok : factorsOk fh fk) :
    parcheck Q y fh fk cl = parcheckArrays Q y cl := by
  obtain ⟨hh, hk, hh0, hh1, hk0, hk1⟩ := hok
  unfold parcheck
  simp [hh, hk, hh0, hh1, hk0, hk1]

/-- A successful `asanyarrayFloat` conversion always yields a float64
array. -/
theorem asanyarrayFloat_dtype (t : PyTree) (a : NDArray)
    (h : asanyarrayFloat t = .ok a) : a.dtype = DType.float := by
  unfold asanyarrayFloat at h
  cases hs : pyShape t with
  | none => rw [hs] at h; exact absurd h (by simp)
  | some sh =>
    rw [hs] at h
    cases hf : floatDataOf (pyFlatten t) with
    | error m => rw [hf] at h; exact absurd h (by simp)
    | ok qs =>
      rw [hf] at h
      cases h
      rfl

/-- With `classes=None` and an integer-dtype `y`, `get_classes` returns
the sorted unique values of `y` and their count. -/
theorem get_classes_none_int (ya : NDArray) (h : ya.dtype = DType.int) :
    get_classes ya none =
      .ok (⟨[(uniqueSorted (intData ya)).length], DType.int,
            (uniqueSorted (intData ya)).map PyScalar.int⟩,
           (uniqueSorted (intData ya)).length) := by
  unfold get_classes npUnique
  rw [h]
  simp

/-- The sorted unique list has as many elements as there are distinct
values in the input. -/
theorem uniqueSorted_length {α : Type} [LinearOrder α] (l : List α) :
    (uniqueSorted l).length = l.dedup.length :=
  (List.perm_insertionSort _ _).length_eq

/-- When everything is well formed and the class resolver agrees with
`Q`'s column count, the array-checking tail succeeds. -/
theorem parcheckArrays_ok (Q y : PyTree) (cl : Option PyTree)
    (qa ya u : NDArray) (M N : Nat)
    (hQ : asanyarrayFloat Q = .ok qa) (hy : asanyarray y = .ok ya)
    (hqs : qa.shape = [M, N]) (hys : ya.shape = [M])
    (hyd : ya.dtype = DType.int)
    (hcl : get_classes ya cl = .ok (u, N)) :
    parcheckArrays Q y cl = .ok () := by
  unfold parcheckArrays get_nparrays
  rw [hQ, hy]
  simp [NDArray.ndim, hqs, hys, hyd, hcl]

/-- Valid factors plus a well-formed `(Q, y)` pair with matching unique
label count make `parcheck` succeed (shared well-formedness path). -/
theorem parcheck_ok_of_wellformed (Q y : PyTree) (fh fk : PyScalar)
    (qa ya : NDArray) (M N : Nat)
    (hok : factorsOk fh fk)
    (hQ : asanyarrayFloat Q = .ok qa) (hy : asanyarray y = .ok ya)
    (hqs : qa.shape = [M, N]) (hys : ya.shape = [M])
    (hyd : ya.dtype = DType.int)
    (hN : (npUnique ya).length = N) :
    parcheck Q y fh fk none = .ok () := by
  rw [parcheck_factors_pass Q y fh fk none hok]
  have hlen : (uniqueSorted (intData ya)).length = N := by
    rw [← hN]; unfold npUnique; rw [hyd]; simp
  have hcl : get_classes ya none =
      .ok (⟨[(uniqueSorted (intData ya)).length], DType.int,
            (uniqueSorted (intData ya)).map PyScalar.int⟩, N) := by
    rw [get_classes_none_int ya hyd, hlen]
  exact parcheckArrays_ok Q y none qa ya _ M N hQ hy hqs hys hyd hcl

/-! Claim theorems. -/

/-- C1: for scaling factors in `[0, 1]` and a well-formed pair `(Q, y)` —
`Q` convertible to a 2-D float array of shape `(M, N)`, `y` convertible
to a 1-D integer array of length `M` whose number of unique labels is
`N` — `parcheck` with `classes=None` returns `None` without raising. -/
theorem parcheck_wellformed_ok (Q y : PyTree) (fh fk : PyScalar)
    (qa ya : NDArray) (M N : Nat)
    (hok : factorsOk fh fk)
    (hQ : asanyarrayFloat Q = .ok qa) (hy : asanyarray y = .ok ya)
    (hqs : qa.shape = [M, N]) (hys : ya.shape = [M])
    (hyd : ya.dtype = DType.int)
    (hN : (npUnique ya).length = N) :
    parcheck Q y fh fk none = .ok () :=
  parcheck_ok_of_wellformed Q y fh fk qa ya M N hok hQ hy hqs hys hyd hN

/-- Witness for C1 at a concrete well-formed input. -/
theorem parcheck_wellformed_ok_witness :
    parcheck Qex2 yex2 (.float 1) (.int 0) none = .ok () :=
  parcheck_wellformed_ok Qex2 yex2 (.float 1) (.int 0) qaEx2 yaEx2 2 2
    ⟨rfl, rfl, by decide, by decide, by decide, by decide⟩
    rfl rfl rfl rfl rfl rfl

/-- C2: `parcheck` performs its checks in the fixed order factor types,
factor ranges, array conversion, dimensionality, shape consistency,
label type, class consistency; the error raised is the one for the
earliest violated check and no errors are aggregated. -/
theorem parcheck_check_order :
    (∀ Q y fh fk cl, isRealNumber fh = false →
      parcheck Q y fh fk cl = .error (.factorTypeError "factor_h" fh.tag)) ∧
    (∀ Q y fh fk cl, isRealNumber fh = true → isRealNumber fk = false →
      parcheck Q y fh fk cl = .error (.factorTypeError "factor_k" fk.tag)) ∧
    (∀ Q y fh fk cl, isRealNumber fh = true → isRealNumber fk = true →
      ¬ (0 ≤ numValue fh ∧ numValue fh ≤ 1) →
      parcheck Q y fh fk cl = .error (.factorRangeError "factor_h" fh)) ∧
    (∀ Q y fh fk cl, isRealNumber fh = true → isRealNumber fk = true →
      0 ≤ numValue fh → numValue fh ≤ 1 →
      ¬ (0 ≤ numValue fk ∧ numValue fk ≤ 1) →
      parcheck Q y fh fk cl = .error (.factorRangeError "factor_k" fk)) ∧
    (∀ Q y fh fk cl e, factorsOk fh fk → get_nparrays Q y = .error e →
      parcheck Q y fh fk cl = .error e) ∧
    (∀ Q y fh fk cl qa ya, factorsOk fh fk →
      get_nparrays Q y = .ok (qa, ya) → qa.ndim ≠ 2 →
      parcheck Q y fh fk cl = .error (.dimError "Q" qa.ndim)) ∧
    (∀ Q y fh fk cl qa ya, factorsOk fh fk →
      get_nparrays Q y = .ok (qa, ya) → qa.ndim = 2 → ya.ndim ≠ 1 →
      parcheck Q y fh fk cl = .error (.dimError "y" ya.ndim)) ∧
    (∀ Q y fh fk cl qa ya, factorsOk fh fk →
      get_nparrays Q y = .ok (qa, ya) → qa.ndim = 2 → ya.ndim = 1 →
      qa.shape.headD 0 ≠ ya.shape.headD 0 →
      parcheck Q y fh fk cl =
        .error (.sampleMismatchError (qa.shape.headD 0) (ya.shape.headD 0))) ∧
    (∀ Q y fh fk cl qa ya, factorsOk fh fk →
      get_nparrays Q y = .ok (qa, ya) → qa.ndim = 2 → ya.ndim = 1 →
      qa.shape.headD 0 = ya.shape.headD 0 → ya.dtype ≠ DType.int →
      parcheck Q y fh fk cl = .error (.labelTypeError ya.dtype)) ∧
    (∀ Q y fh fk cl qa ya u n, factorsOk fh fk →
      get_nparrays Q y = .ok (qa, ya) → qa.ndim = 2 → ya.ndim = 1 →
      qa.shape.headD 0 = ya.shape.headD 0 → ya.dtype = DType.int →
      get_classes ya cl = .ok (u, n) → (qa.shape.drop 1).headD 0 ≠ n →
      parcheck Q y fh fk cl =
        .error (.classMismatchError ((qa.shape.drop 1).headD 0) n)) := by
  refine ⟨?_, ?_, ?_, ?_, ?_, ?_, ?_, ?_, ?_, ?_⟩
  · intro Q y fh fk cl hh
    unfold parcheck; simp [hh]
  · intro Q y fh fk cl hh hk
    unfold parcheck; simp [hh, hk]
  · intro Q y fh fk cl hh hk hr
    unfold parcheck; simp [hh, hk, hr]
  · intro Q y fh fk cl hh hk hh0 hh1 hr
    unfold parcheck; simp [hh, hk, hh0, hh1, hr]
  · intro Q y fh fk cl e hok hg
    rw [parcheck_factors_pass Q y fh fk cl hok]
    unfold parcheckArrays; rw [hg]
  · intro Q y fh fk cl qa ya hok hg hq2
    rw [parcheck_factors_pass Q y fh fk cl hok]
    unfold parcheckArrays; rw [hg]; simp [hq2]
  · intro Q y fh fk cl qa ya hok hg hq2 hy1
    rw [parcheck_factors_pass Q y fh fk cl hok]
    unfold parcheckArrays; rw [hg]; simp [hq2, hy1]
  · intro Q y fh fk cl qa ya hok hg hq2 hy1 hs
    rw [parcheck_factors_pass Q y fh fk cl hok]
    simp only [ne_eq] at hs
    simp at hs
    unfold parcheckArrays; rw [hg]; simp [hq2, hy1, hs]
  · intro Q y fh fk cl qa ya hok hg hq2 hy1 hs hd
    rw [parcheck_factors_pass Q y fh fk cl hok]
    simp at hs
    unfold parcheckArrays; rw [hg]; simp [hq2, hy1, hs, hd]
  · intro Q y fh fk cl qa ya u n hok hg hq2 hy1 hs hd hcl hne
    rw [parcheck_factors_pass Q y fh fk cl hok]
    simp at hs hne
    unfold parcheckArrays; rw [hg]; simp [hq2, hy1, hs, hd, hcl, hne]

/-- Witness for C2: with `factor_h` out of range and a non-convertible
(ragged) `Q`, the `factor_h` range `ValueError` is raised, not the
conversion `TypeError`. -/
theorem parcheck_check_order_witness :
    parcheck Qrag yex2 (.float 2) (.int 0) none =
      .error (.factorRangeError "factor_h" (.float 2)) :=
  parcheck_check_order.2.2.1 Qrag yex2 (.float 2) (.int 0) none
    rfl rfl (by decide)

/-- C3: a scaling factor that is not a real number raises `TypeError`
naming the parameter and its runtime type; a real factor outside
`[0.0, 1.0]` raises `ValueError` naming the parameter and its value;
factors that are real numbers within `[0.0, 1.0]` (endpoints included)
pass both factor checks and `parcheck` proceeds to the array checks. -/
theorem parcheck_factor_checks :
    (∀ Q y fh fk cl, isRealNumber fh = false →
      parcheck Q y fh fk cl = .error (.factorTypeError "factor_h" fh.tag) ∧
      (PErr.factorTypeError "factor_h" fh.tag).kind = ErrKind.typeError) ∧
    (∀ Q y fh fk cl, isRealNumber fh = true → isRealNumber fk = false →
      parcheck Q y fh fk cl = .error (.factorTypeError "factor_k" fk.tag) ∧
      (PErr.factorTypeError "factor_k" fk.tag).kind = ErrKind.typeError) ∧
    (∀ Q y fh fk cl, isRealNumber fh = true → isRealNumber fk = true →
      ¬ (0 ≤ numValue fh ∧ numValue fh ≤ 1) →
      parcheck Q y fh fk cl = .error (.factorRangeError "factor_h" fh) ∧
      (PErr.factorRangeError "factor_h" fh).kind = ErrKind.valueError) ∧
    (∀ Q y fh fk cl, isRealNumber fh = true → isRealNumber fk = true →
      0 ≤ numValue fh → numValue fh ≤ 1 →
      ¬ (0 ≤ numValue fk ∧ numValue fk ≤ 1) →
      parcheck Q y fh fk cl = .error (.factorRangeError "factor_k" fk) ∧
      (PErr.factorRangeError "factor_k" fk).kind = ErrKind.valueError) ∧
    (∀ Q y fh fk cl, factorsOk fh fk →
      parcheck Q y fh fk cl = parcheckArrays Q y cl) := by
  refine ⟨?_, ?_, ?_, ?_, ?_⟩
  · intro Q y fh fk cl hh
    refine ⟨?_, rfl⟩
    unfold parcheck; simp [hh]
  · intro Q y fh fk cl hh hk
    refine ⟨?_, rfl⟩
    unfold parcheck; simp [hh, hk]
  · intro Q y fh fk cl hh hk hr
    refine ⟨?_, rfl⟩
    unfold parcheck; simp [hh, hk, hr]
  · intro Q y fh fk cl hh hk hh0 hh1 hr
    refine ⟨?_, rfl⟩
    unfold parcheck; simp [hh, hk, hh0, hh1, hr]
  · intro Q y fh fk cl hok
    exact parcheck_factors_pass Q y fh fk cl hok

/-- Witness for C3: the endpoint factors `0.0` and `1.0` pass both
factor checks and `parcheck` proceeds to the array checks. -/
theorem parcheck_factor_checks_witness :
    parcheck Qex2 yex2 (.float 0) (.float 1) none =
      parcheckArrays Qex2 yex2 none :=
  parcheck_factor_checks.2.2.2.2 Qex2 yex2 (.float 0) (.float 1) none
    ⟨rfl, rfl, by decide, by decide, by decide, by decide⟩

/-- C4: `get_nparrays` raises `TypeError` whenever `Q` or `y` cannot be
interpreted as a numeric array, wrapping the underlying conversion
failure's message; on success it returns `Q` coerced to float64 and `y`
coerced with its inferred dtype. -/
theorem get_nparrays_spec :
    (∀ Q y m, asanyarrayFloat Q = .error m →
      get_nparrays Q y = .error (.conversionError (wrapMsg m)) ∧
      (PErr.conversionError (wrapMsg m)).kind = ErrKind.typeError) ∧
    (∀ Q y qa m, asanyarrayFloat Q = .ok qa → asanyarray y = .error m →
      get_nparrays Q y = .error (.conversionError (wrapMsg m)) ∧
      (PErr.conversionError (wrapMsg m)).kind = ErrKind.typeError) ∧
    (∀ Q y qa ya, asanyarrayFloat Q = .ok qa → asanyarray y = .ok ya →
      get_nparrays Q y = .ok (qa, ya) ∧ qa.dtype = DType.float) := by
  refine ⟨?_, ?_, ?_⟩
  · intro Q y m hQ
    refine ⟨?_, rfl⟩
    unfold get_nparrays; rw [hQ]
  · intro Q y qa m hQ hy
    refine ⟨?_, rfl⟩
    unfold get_nparrays; rw [hQ, hy]
  · intro Q y qa ya hQ hy
    refine ⟨?_, asanyarrayFloat_dtype Q qa hQ⟩
    unfold get_nparrays; rw [hQ, hy]

/-- Witness for C4: a ragged `Q` makes `get_nparrays` raise the wrapped
conversion `TypeError`. -/
theorem get_nparrays_spec_witness :
    get_nparrays Qrag yex2 = .error (.conversionError (wrapMsg raggedMsg)) ∧
    (PErr.conversionError (wrapMsg raggedMsg)).kind = ErrKind.typeError :=
  get_nparrays_spec.1 Qrag yex2 raggedMsg rfl

/-- C5: an explicit class set is the total authority — `get_classes`
returns it and its length regardless of `y`, and `parcheck` performs no
membership check: labels of `y` outside the explicit set do not prevent
success as long as `Q`'s column count equals the set's length. -/
theorem get_classes_explicit_authority :
    (∀ y1 y2 c ca, asanyarray c = .ok ca → ca.ndim ≠ 0 →
      get_classes y1 (some c) = .ok (ca, ca.shape.headD 0) ∧
      get_classes y1 (some c) = get_classes y2 (some c)) ∧
    (∀ Q y fh fk c qa ya ca M N, factorsOk fh fk →
      asanyarrayFloat Q = .ok qa → asanyarray y = .ok ya →
      qa.shape = [M, N] → ya.shape = [M] → ya.dtype = DType.int →
      asanyarray c = .ok ca → ca.ndim ≠ 0 → ca.shape.headD 0 = N →
      (∃ z, z ∈ intData ya ∧ PyScalar.int z ∉ ca.data) →
      parcheck Q y fh fk (some c) = .ok ()) := by
  constructor
  · intro y1 y2 c ca hc hnd
    have h1 : get_classes y1 (some c) = .ok (ca, ca.shape.headD 0) := by
      simp [get_classes, hc, hnd]
    have h2 : get_classes y2 (some c) = .ok (ca, ca.shape.headD 0) := by
      simp [get_classes, hc, hnd]
    exact ⟨h1, h1.trans h2.symm⟩
  · intro Q y fh fk c qa ya ca M N hok hQ hy hqs hys hyd hc hnd hlen _hmem
    rw [parcheck_factors_pass Q y fh fk (some c) hok]
    refine parcheckArrays_ok Q y (some c) qa ya ca M N hQ hy hqs hys hyd ?_
    simp [get_classes, hc, hnd]
    simpa using hlen

/-- Witness for C5: `y = [0, 5]` with explicit `classes = [0, 1]` (label
5 is not in the set) still validates against a 2-column `Q`. -/
theorem get_classes_explicit_authority_witness :
    parcheck Qex2 y05 (.int 0) (.int 1) (some cls01) = .ok () :=
  get_classes_explicit_authority.2 Qex2 y05 (.int 0) (.int 1) cls01
    qaEx2 ya05 ca01 2 2
    ⟨rfl, rfl, by decide, by decide, by decide, by decide⟩
    rfl rfl rfl rfl rfl rfl (by decide) rfl
    ⟨5, by decide, by decide⟩

/-- C6: with `classes=None` the resolved class count is the number of
distinct labels in `y`, and `parcheck` raises `ValueError` reporting both
values exactly when `Q`'s column count differs from it. -/
theorem parcheck_inferred_class_count :
    (∀ ya : NDArray, ya.dtype = DType.int →
      ∃ u : NDArray,
        get_classes ya none = .ok (u, (intData ya).dedup.length)) ∧
    (∀ Q y fh fk qa ya M N, factorsOk fh fk →
      asanyarrayFloat Q = .ok qa → asanyarray y = .ok ya →
      qa.shape = [M, N] → ya.shape = [M] → ya.dtype = DType.int →
      N ≠ (intData ya).dedup.length →
      parcheck Q y fh fk none =
        .error (.classMismatchError N ((intData ya).dedup.length)) ∧
      (PErr.classMismatchError N ((intData ya).dedup.length)).kind =
        ErrKind.valueError) ∧
    (∀ Q y fh fk qa ya M N, factorsOk fh fk →
      asanyarrayFloat Q = .ok qa → asanyarray y = .ok ya →
      qa.shape = [M, N] → ya.shape = [M] → ya.dtype = DType.int →
      N = (intData ya).dedup.length →
      parcheck Q y fh fk none = .ok ()) := by
  refine ⟨?_, ?_, ?_⟩
  · intro ya h
    exact ⟨_, by rw [get_classes_none_int ya h, uniqueSorted_length]⟩
  · intro Q y fh fk qa ya M N hok hQ hy hqs hys hyd hne
    refine ⟨?_, rfl⟩
    rw [parcheck_factors_pass Q y fh fk none hok]
    have hcl := get_classes_none_int ya hyd
    rw [uniqueSorted_length] at hcl
    unfold parcheckArrays get_nparrays
    rw [hQ, hy]
    simp [NDArray.ndim, hqs, hys, hyd, hcl, hne]
  · intro Q y fh fk qa ya M N hok hQ hy hqs hys hyd hN
    rw [parcheck_factors_pass Q y fh fk none hok]
    have hcl := get_classes_none_int ya hyd
    rw [uniqueSorted_length, ← hN] at hcl
    exact parcheckArrays_ok Q y none qa ya _ M N hQ hy hqs hys hyd hcl

/-- Witness for C6: a 4x3 `Q` with `y = [0, 1, 2, 1]` (3 distinct
labels) succeeds, while a 3x3 `Q` with `y = [0, 0, 1]` (2 distinct
labels) raises the class-count `ValueError` citing 3 and 2. -/
theorem parcheck_inferred_class_count_witness :
    parcheck Q43 y0121 (.int 0) (.int 1) none = .ok () ∧
    parcheck Q33 y001 (.int 0) (.int 1) none =
      .error (.classMismatchError 3 2) :=
  ⟨parcheck_inferred_class_count.2.2 Q43 y0121 (.int 0) (.int 1)
      qa43 ya0121 4 3
      ⟨rfl, rfl, by decide, by decide, by decide, by decide⟩
      rfl rfl rfl rfl rfl (by decide),
    (parcheck_inferred_class_count.2.1 Q33 y001 (.int 0) (.int 1)
      qa33 ya001 3 3
      ⟨rfl, rfl, by decide, by decide, by decide, by decide⟩
      rfl rfl rfl rfl rfl (by decide)).1⟩

/-- C7: once conversion, dimensionality and shape consistency have
passed, a normalized `y` whose dtype is not integral makes `parcheck`
raise `TypeError` reporting the observed element type. -/
theorem parcheck_label_type_check :
    ∀ Q y fh fk cl qa ya, factorsOk fh fk →
      get_nparrays Q y = .ok (qa, ya) → qa.ndim = 2 → ya.ndim = 1 →
      qa.shape.headD 0 = ya.shape.headD 0 → ya.dtype ≠ DType.int →
      parcheck Q y fh fk cl = .error (.labelTypeError ya.dtype) ∧
      (PErr.labelTypeError ya.dtype).kind = ErrKind.typeError := by
  intro Q y fh fk cl qa ya hok hg hq2 hy1 hs hd
  refine ⟨?_, rfl⟩
  rw [parcheck_factors_pass Q y fh fk cl hok]
  simp at hs
  unfold parcheckArrays; rw [hg]; simp [hq2, hy1, hs, hd]

/-- Witness for C7: floating-point labels `[0.0, 1.0]` raise the label
`TypeError` after the earlier checks pass. -/
theorem parcheck_label_type_check_witness :
    parcheck Qex2 yfloat2 (.int 0) (.int 1) none =
      .error (.labelTypeError DType.float) ∧
    (PErr.labelTypeError DType.float).kind = ErrKind.typeError :=
  parcheck_label_type_check Qex2 yfloat2 (.int 0) (.int 1) none
    qaEx2 yafloat2
    ⟨rfl, rfl, by decide, by decide, by decide, by decide⟩
    rfl rfl rfl rfl (by decide)

/-- C8: after successful normalization, a `Q` without exactly 2 axes or
a `y` without exactly 1 axis raises `ValueError` reporting the actual
axis count, and with both axis checks passed a first-axis length
mismatch raises `ValueError` reporting both values. -/
theorem parcheck_dim_and_shape_checks :
    (∀ Q y fh fk cl qa ya, factorsOk fh fk →
      get_nparrays Q y = .ok (qa, ya) → qa.ndim ≠ 2 →
      parcheck Q y fh fk cl = .error (.dimError "Q" qa.ndim) ∧
      (PErr.dimError "Q" qa.ndim).kind = ErrKind.valueError) ∧
    (∀ Q y fh fk cl qa ya, factorsOk fh fk →
      get_nparrays Q y = .ok (qa, ya) → qa.ndim = 2 → ya.ndim ≠ 1 →
      parcheck Q y fh fk cl = .error (.dimError "y" ya.ndim) ∧
      (PErr.dimError "y" ya.ndim).kind = ErrKind.valueError) ∧
    (∀ Q y fh fk cl qa ya, factorsOk fh fk →
      get_nparrays Q y = .ok (qa, ya) → qa.ndim = 2 → ya.ndim = 1 →
      qa.shape.headD 0 ≠ ya.shape.headD 0 →
      parcheck Q y fh fk cl =
        .error (.sampleMismatchError (qa.shape.headD 0)
          (ya.shape.headD 0)) ∧
      (PErr.sampleMismatchError (qa.shape.headD 0)
        (ya.shape.headD 0)).kind = ErrKind.valueError) := by
  refine ⟨?_, ?_, ?_⟩
  · intro Q y fh fk cl qa ya hok hg hq2
    refine ⟨?_, rfl⟩
    rw [parcheck_factors_pass Q y fh fk cl hok]
    unfold parcheckArrays; rw [hg]; simp [hq2]
  · intro Q y fh fk cl qa ya hok hg hq2 hy1
    refine ⟨?_, rfl⟩
    rw [parcheck_factors_pass Q y fh fk cl hok]
    unfold parcheckArrays; rw [hg]; simp [hq2, hy1]
  · intro Q y fh fk cl qa ya hok hg hq2 hy1 hs
    refine ⟨?_, rfl⟩
    rw [parcheck_factors_pass Q y fh fk cl hok]
    simp only [ne_eq] at hs
    simp at hs
    unfold parcheckArrays; rw [hg]; simp [hq2, hy1, hs]

/-- Witness for C8: a 1-D `Q` raises the axis-count `ValueError`, and a
5x3 `Q` against a length-4 `y` raises the shape `ValueError` citing 5
and 4. -/
theorem parcheck_dim_and_shape_checks_witness :
    parcheck Q1d yex2 (.int 0) (.int 1) none =
      .error (.dimError "Q" 1) ∧
    parcheck Q53 y0121 (.int 0) (.int 1) none =
      .error (.sampleMismatchError 5 4) :=
  ⟨(parcheck_dim_and_shape_checks.1 Q1d yex2 (.int 0) (.int 1) none
      qa1d yaEx2
      ⟨rfl, rfl, by decide, by decide, by decide, by decide⟩
      rfl (by decide)).1,
    (parcheck_dim_and_shape_checks.2.2 Q53 y0121 (.int 0) (.int 1) none
      qa53 ya0121
      ⟨rfl, rfl, by decide, by decide, by decide, by decide⟩
      rfl rfl rfl (by decide)).1⟩

/-- C9: boolean scaling factors are accepted: `isinstance` admits bools
as ints, their numeric value (0 or 1) is inside `[0, 1]`, and on a
well-formed `(Q, y)` pair `parcheck` with any boolean factor combination
raises nothing. -/
theorem parcheck_bool_factors (a b : Bool) (Q y : PyTree)
    (qa ya : NDArray) (M N : Nat)
    (hQ : asanyarrayFloat Q = .ok qa) (hy : asanyarray y = .ok ya)
    (hqs : qa.shape = [M, N]) (hys : ya.shape = [M])
    (hyd : ya.dtype = DType.int) (hN : (npUnique ya).length = N) :
    isRealNumber (.bool a) = true ∧
    0 ≤ numValue (.bool a) ∧ numValue (.bool a) ≤ 1 ∧
    isRealNumber (.bool b) = true ∧
    0 ≤ numValue (.bool b) ∧ numValue (.bool b) ≤ 1 ∧
    parcheck Q y (.bool a) (.bool b) none = .ok () := by
  have hb : ∀ c : Bool, 0 ≤ numValue (.bool c) ∧ numValue (.bool c) ≤ 1 := by
    intro c
    cases c <;> exact ⟨by norm_num [numValue, scalarToQ],
      by norm_num [numValue, scalarToQ]⟩
  refine ⟨rfl, (hb a).1, (hb a).2, rfl, (hb b).1, (hb b).2, ?_⟩
  exact parcheck_ok_of_wellformed Q y (.bool a) (.bool b) qa ya M N
    ⟨rfl, rfl, (hb a).1, (hb a).2, (hb b).1, (hb b).2⟩ hQ hy hqs hys hyd hN

/-- Witness for C9: `validate(Q, y, True, False)` succeeds on a
well-formed pair. -/
theorem parcheck_bool_factors_witness :
    parcheck Qex2 yex2 (.bool true) (.bool false) none = .ok () :=
  (parcheck_bool_factors true false Qex2 yex2 qaEx2 yaEx2 2 2
    rfl rfl rfl rfl rfl rfl).2.2.2.2.2.2

/-- C10: with `classes=None`, `get_classes` returns the distinct values
of an integer `y` sorted in strictly ascending order; the result depends
only on the multiset of values, not on their order of appearance. -/
theorem get_classes_inferred_sorted (ya ya2 : NDArray)
    (h : ya.dtype = DType.int) (h2 : ya2.dtype = DType.int) :
    get_classes ya none =
      .ok (⟨[(uniqueSorted (intData ya)).length], DType.int,
            (uniqueSorted (intData ya)).map PyScalar.int⟩,
           (uniqueSorted (intData ya)).length) ∧
    List.Sorted (· < ·) (uniqueSorted (intData ya)) ∧
    (∀ z : ℤ, z ∈ uniqueSorted (intData ya) ↔ z ∈ intData ya) ∧
    (List.Perm (intData ya) (intData ya2) →
      uniqueSorted (intData ya) = uniqueSorted (intData ya2) ∧
      get_classes ya none = get_classes ya2 none) := by
  have hsle : ∀ l : List ℤ, List.Sorted (· ≤ ·) (uniqueSorted l) :=
    fun l => List.sorted_insertionSort _ _
  have hperm : ∀ l : List ℤ, List.Perm (uniqueSorted l) l.dedup :=
    fun l => List.perm_insertionSort _ _
  refine ⟨get_classes_none_int ya h, ?_, ?_, ?_⟩
  · exact (hsle (intData ya)).lt_of_le
      (((hperm (intData ya)).nodup_iff).mpr (List.nodup_dedup _))
  · intro z
    rw [(hperm (intData ya)).mem_iff, List.mem_dedup]
  · intro hp
    have hpp : List.Perm (uniqueSorted (intData ya))
        (uniqueSorted (intData ya2)) :=
      ((hperm (intData ya)).trans hp.dedup).trans
        (hperm (intData ya2)).symm
    have heq : uniqueSorted (intData ya) = uniqueSorted (intData ya2) :=
      List.eq_of_perm_of_sorted hpp (hsle _) (hsle _)
    refine ⟨heq, ?_⟩
    rw [get_classes_none_int ya h, get_classes_none_int ya2 h2, heq]

/-- Witness for C10: two arrays whose data are permutations of each
other resolve to the same classes. -/
theorem get_classes_inferred_sorted_witness :
    get_classes yaPerm1 none = get_classes yaPerm2 none :=
  ((get_classes_inferred_sorted yaPerm1 yaPerm2 rfl rfl).2.2.2
    (by decide)).2
